import Mathlib

/-!
Formal model of the signing examples repository: the signature
recovery-byte normalizer inside `customSignMessage`, the server handler
`signWithAlchemy`, and the client widget submit handler `handleSubmit`
of the sign-message demo component.

Everything is embedded shallowly: strings are `String`/`List Char`,
JavaScript numbers on the relevant paths are `Nat`, external
collaborators become explicit parameters, and fallible steps return
`Option`/`Except`.
-/

set_option autoImplicit false
set_option maxRecDepth 10000

/-! ### JavaScript string/number helpers used by `customSignMessage`

`parseInt(s, 16)` on the two-character slice: an optional leading
`0x`/`0X` marker is skipped, then the longest leading run of hex digits
is parsed; if no digit leads, the result is `NaN` (modelled as `none`).
Whitespace/sign handling of `parseInt` is never exercised by a
two-character hex slice and is not modelled. -/

def hexDigit? (c : Char) : Option Nat :=
  if '0' ≤ c ∧ c ≤ '9' then some (c.toNat - '0'.toNat)
  else if 'a' ≤ c ∧ c ≤ 'f' then some (c.toNat - 'a'.toNat + 10)
  else if 'A' ≤ c ∧ c ≤ 'F' then some (c.toNat - 'A'.toNat + 10)
  else none

/-- Accumulating parse of the longest leading run of hex digits. -/
def parseHexDigits : List Char → Nat → Nat
  | [], acc => acc
  | c :: cs, acc =>
    match hexDigit? c with
    | some d => parseHexDigits cs (16 * acc + d)
    | none => acc

/-- `parseInt` with radix 16 skips one leading `0x` or `0X` marker. -/
def stripHex0x (l : List Char) : List Char :=
  match l with
  | c0 :: c1 :: rest => if c0 = '0' ∧ (c1 = 'x' ∨ c1 = 'X') then rest else l
  | _ => l

/-- `parseInt(s, 16)`: `none` models `NaN`. -/
def jsParseInt16 (l : List Char) : Option Nat :=
  match stripHex0x l with
  | [] => none
  | c :: cs =>
    match hexDigit? c with
    | some _ => some (parseHexDigits (c :: cs) 0)
    | none => none

/-- `s.padStart(2, "0")`. -/
def padStart2 (l : List Char) : List Char :=
  if l.length < 2 then List.replicate (2 - l.length) '0' ++ l else l

/-- Lines 137-141 of the server source (`customSignMessage`):
```
const lastByte = parseInt(signature.slice(-2), 16);
if (lastByte < 27) {
  const adjustedV = (lastByte + 27).toString(16).padStart(2, "0");
  signature = signature.slice(0, -2) + adjustedV;
}
```
`n.toString(16)` is `Nat.toDigits 16 n` (lowercase hex, no padding);
`NaN < 27` is `false` in JavaScript, so the `none` branch leaves the
signature unchanged. -/
def adjustV (signature : List Char) : List Char :=
  match jsParseInt16 (signature.drop (signature.length - 2)) with
  | some lastByte =>
    if lastByte < 27 then
      signature.take (signature.length - 2) ++ padStart2 (Nat.toDigits 16 (lastByte + 27))
    else signature
  | none => signature

/-- Lines 136-143 of the server source: the recovery-byte adjustment
followed by `` return `0x${signature}` ``. -/
def normalizeSignature (signature : List Char) : List Char :=
  '0' :: 'x' :: adjustV signature

/-- A lowercase hex digit (`0`-`9` or `a`-`f`). -/
def isLowerHexChar (c : Char) : Bool :=
  ('0' ≤ c && c ≤ '9') || ('a' ≤ c && c ≤ 'f')

/-! ### Supporting lemmas about the normalizer -/

theorem hexDigit?_not_xX {c : Char} {v : Nat} (h : hexDigit? c = some v) :
    ¬(c = 'x' ∨ c = 'X') := by
  rintro (rfl | rfl) <;>
    · rw [(by decide : hexDigit? _ = none)] at h
      exact Option.noConfusion h

theorem jsParseInt16_pair {c1 c2 : Char} {v1 v2 : Nat}
    (h1 : hexDigit? c1 = some v1) (h2 : hexDigit? c2 = some v2) :
    jsParseInt16 [c1, c2] = some (16 * v1 + v2) := by
  have hx : ¬(c1 = '0' ∧ (c2 = 'x' ∨ c2 = 'X')) := by
    rintro ⟨-, h⟩
    exact hexDigit?_not_xX h2 h
  simp only [jsParseInt16, stripHex0x, if_neg hx, h1, h2, parseHexDigits,
    Option.some.injEq]
  omega

theorem adjustV_of_ge {l : List Char} {w : Nat} (hLen : l.length = 130)
    (hparse : jsParseInt16 (l.drop 128) = some w) (hw : 27 ≤ w) :
    adjustV l = l := by
  have h2 : l.length - 2 = 128 := by omega
  unfold adjustV
  rw [h2, hparse]
  simp only [if_neg (show ¬ w < 27 by omega)]

theorem adjustV_of_lt {l : List Char} {w : Nat} (hLen : l.length = 130)
    (hparse : jsParseInt16 (l.drop 128) = some w) (hw : w < 27) :
    adjustV l = l.take 128 ++ padStart2 (Nat.toDigits 16 (w + 27)) := by
  have h2 : l.length - 2 = 128 := by omega
  unfold adjustV
  rw [h2, hparse]
  simp only [if_pos hw]

/-- For every trailing-byte value below 27, the adjusted value `w + 27`
re-encodes as exactly two lowercase hex digits that parse back to
`w + 27`. -/
theorem hexPair27 : ∀ w : Nat, w < 27 →
    padStart2 (Nat.toDigits 16 (w + 27)) =
      [Nat.digitChar ((w + 27) / 16), Nat.digitChar ((w + 27) % 16)] ∧
    jsParseInt16 [Nat.digitChar ((w + 27) / 16), Nat.digitChar ((w + 27) % 16)] =
      some (w + 27) ∧
    isLowerHexChar (Nat.digitChar ((w + 27) / 16)) = true ∧
    isLowerHexChar (Nat.digitChar ((w + 27) % 16)) = true := by decide

theorem lowerHex_isSome {c : Char} (h : isLowerHexChar c = true) :
    (hexDigit? c).isSome = true := by
  simp only [isLowerHexChar, Bool.or_eq_true, Bool.and_eq_true,
    decide_eq_true_eq] at h
  unfold hexDigit?
  rcases h with h' | h'
  · rw [if_pos ⟨h'.1, h'.2⟩]
    rfl
  · have h9 : ¬('0' ≤ c ∧ c ≤ '9') := by
      rintro ⟨-, hc⟩
      exact absurd (le_trans h'.1 hc) (by decide)
    rw [if_neg h9, if_pos ⟨h'.1, h'.2⟩]
    rfl

/-- A 130-character list decomposes after position 128 into two chars. -/
theorem drop128_pair {l : List Char} (hLen : l.length = 130) :
    ∃ c1 c2, l.drop 128 = [c1, c2] :=
  List.length_eq_two.mp (by rw [List.length_drop, hLen])

/-! ### C1 - C4: claims about the normalizer -/

/-- C1: for every 130-hex-character signature whose trailing byte (last
two hex chars) has value `16 * v1 + v2 < 27`, the normalizer returns
`0x` followed by the first 128 characters unchanged and the trailing
byte re-encoded as two lowercase hex characters whose value is the
original plus 27. -/
theorem normalizeSignature_lt27 (sig : List Char) (c1 c2 : Char) (v1 v2 : Nat)
    (hLen : sig.length = 130)
    (hHex : ∀ c ∈ sig, (hexDigit? c).isSome = true)
    (hLast : sig.drop 128 = [c1, c2])
    (h1 : hexDigit? c1 = some v1) (h2 : hexDigit? c2 = some v2)
    (hv : 16 * v1 + v2 < 27) :
    ∃ d1 d2 : Char,
      normalizeSignature sig = '0' :: 'x' :: (sig.take 128 ++ [d1, d2]) ∧
      jsParseInt16 [d1, d2] = some (16 * v1 + v2 + 27) ∧
      isLowerHexChar d1 = true ∧ isLowerHexChar d2 = true := by
  obtain ⟨hpad, hparse2, hl1, hl2⟩ := hexPair27 (16 * v1 + v2) hv
  have hparse : jsParseInt16 (sig.drop 128) = some (16 * v1 + v2) := by
    rw [hLast]
    exact jsParseInt16_pair h1 h2
  refine ⟨_, _, ?_, hparse2, hl1, hl2⟩
  unfold normalizeSignature
  rw [adjustV_of_lt hLen hparse hv, hpad]

def sigW1 : List Char := List.replicate 128 '1' ++ ['0', 'a']

theorem normalizeSignature_lt27_witness :
    (sigW1.length = 130 ∧ (∀ c ∈ sigW1, (hexDigit? c).isSome = true) ∧
      sigW1.drop 128 = ['0', 'a'] ∧ hexDigit? '0' = some 0 ∧
      hexDigit? 'a' = some 10 ∧ 16 * 0 + 10 < 27) ∧
    ∃ d1 d2 : Char,
      normalizeSignature sigW1 = '0' :: 'x' :: (sigW1.take 128 ++ [d1, d2]) ∧
      jsParseInt16 [d1, d2] = some (16 * 0 + 10 + 27) ∧
      isLowerHexChar d1 = true ∧ isLowerHexChar d2 = true :=
  ⟨⟨by decide, by decide, by decide, by decide, by decide, by decide⟩,
    normalizeSignature_lt27 sigW1 '0' 'a' 0 10 (by decide) (by decide)
      (by decide) (by decide) (by decide) (by decide)⟩

/-- C2: for every 130-hex-character signature whose trailing byte has
value at least 27, the normalizer returns the input unchanged apart
from the prepended `0x` marker (absent from a 130-hex-char input). -/
theorem normalizeSignature_ge27 (sig : List Char) (c1 c2 : Char) (v1 v2 : Nat)
    (hLen : sig.length = 130)
    (hHex : ∀ c ∈ sig, (hexDigit? c).isSome = true)
    (hLast : sig.drop 128 = [c1, c2])
    (h1 : hexDigit? c1 = some v1) (h2 : hexDigit? c2 = some v2)
    (hv : 27 ≤ 16 * v1 + v2) :
    normalizeSignature sig = '0' :: 'x' :: sig := by
  have hparse : jsParseInt16 (sig.drop 128) = some (16 * v1 + v2) := by
    rw [hLast]
    exact jsParseInt16_pair h1 h2
  unfold normalizeSignature
  rw [adjustV_of_ge hLen hparse hv]

def sigW2 : List Char := List.replicate 128 'f' ++ ['1', 'b']

theorem normalizeSignature_ge27_witness :
    (sigW2.length = 130 ∧ (∀ c ∈ sigW2, (hexDigit? c).isSome = true) ∧
      sigW2.drop 128 = ['1', 'b'] ∧ hexDigit? '1' = some 1 ∧
      hexDigit? 'b' = some 11 ∧ 27 ≤ 16 * 1 + 11) ∧
    normalizeSignature sigW2 = '0' :: 'x' :: sigW2 :=
  ⟨⟨by decide, by decide, by decide, by decide, by decide, by decide⟩,
    normalizeSignature_ge27 sigW2 '1' 'b' 1 11 (by decide) (by decide)
      (by decide) (by decide) (by decide) (by decide)⟩

/-- A concrete 130-hex-character signature (trailing byte `1b` = 27). -/
def sigC3 : List Char := List.replicate 128 'f' ++ ['1', 'b']

/-- C3 counterexample: the normalizer's output is two characters longer
than the input (the prepended `0x`), so it never has the same length as
a 130-hex-character input. -/
theorem normalizeSignature_same_length_cex :
    ¬(normalizeSignature sigC3).length = sigC3.length := by decide

/-- C3 amended: for every 130-hex-character signature, the output is a
`0x`-marked hex string whose length is the input's length plus two (the
added marker), and whose hex payload differs from the input only in the
last byte. -/
theorem normalizeSignature_shape (sig : List Char)
    (hLen : sig.length = 130)
    (hHex : ∀ c ∈ sig, (hexDigit? c).isSome = true) :
    ∃ d1 d2 : Char,
      normalizeSignature sig = '0' :: 'x' :: (sig.take 128 ++ [d1, d2]) ∧
      (∀ c ∈ sig.take 128 ++ [d1, d2], (hexDigit? c).isSome = true) ∧
      (normalizeSignature sig).length = sig.length + 2 := by
  obtain ⟨c1, c2, hLast⟩ := drop128_pair hLen
  have hm1 : c1 ∈ sig := List.mem_of_mem_drop (l := sig) (n := 128)
    (by rw [hLast]; exact List.mem_cons_self c1 [c2])
  have hm2 : c2 ∈ sig := List.mem_of_mem_drop (l := sig) (n := 128)
    (by rw [hLast]; exact List.mem_cons_of_mem c1 (List.mem_cons_self c2 []))
  obtain ⟨v1, h1⟩ := Option.isSome_iff_exists.mp (hHex c1 hm1)
  obtain ⟨v2, h2⟩ := Option.isSome_iff_exists.mp (hHex c2 hm2)
  have hTakeHex : ∀ c ∈ sig.take 128, (hexDigit? c).isSome = true :=
    fun c hc => hHex c (List.take_subset 128 sig hc)
  have hTakeLen : (sig.take 128).length = 128 := by
    rw [List.length_take, hLen]
    omega
  have hparse : jsParseInt16 (sig.drop 128) = some (16 * v1 + v2) := by
    rw [hLast]
    exact jsParseInt16_pair h1 h2
  by_cases hv : 16 * v1 + v2 < 27
  · obtain ⟨hpad, -, hl1, hl2⟩ := hexPair27 (16 * v1 + v2) hv
    refine ⟨Nat.digitChar ((16 * v1 + v2 + 27) / 16),
      Nat.digitChar ((16 * v1 + v2 + 27) % 16), ?_, ?_, ?_⟩
    · unfold normalizeSignature
      rw [adjustV_of_lt hLen hparse hv, hpad]
    · intro c hc
      rcases List.mem_append.mp hc with hc | hc
      · exact hTakeHex c hc
      · rcases List.mem_cons.mp hc with rfl | hc
        · exact lowerHex_isSome hl1
        · rcases List.mem_cons.mp hc with rfl | hc
          · exact lowerHex_isSome hl2
          · exact absurd hc (List.not_mem_nil c)
    · unfold normalizeSignature
      rw [adjustV_of_lt hLen hparse hv, hpad]
      simp [hTakeLen, hLen]
  · have hsig : sig.take 128 ++ [c1, c2] = sig := by
      rw [← hLast]
      exact List.take_append_drop 128 sig
    have hunch : normalizeSignature sig = '0' :: 'x' :: sig := by
      unfold normalizeSignature
      rw [adjustV_of_ge hLen hparse (by omega)]
    refine ⟨c1, c2, ?_, ?_, ?_⟩
    · rw [hunch, hsig]
    · intro c hc
      rw [hsig] at hc
      exact hHex c hc
    · rw [hunch]
      simp

theorem normalizeSignature_shape_witness :
    (sigC3.length = 130 ∧ (∀ c ∈ sigC3, (hexDigit? c).isSome = true)) ∧
    ∃ d1 d2 : Char,
      normalizeSignature sigC3 = '0' :: 'x' :: (sigC3.take 128 ++ [d1, d2]) ∧
      (∀ c ∈ sigC3.take 128 ++ [d1, d2], (hexDigit? c).isSome = true) ∧
      (normalizeSignature sigC3).length = sigC3.length + 2 :=
  ⟨⟨by decide, by decide⟩, normalizeSignature_shape sigC3 (by decide) (by decide)⟩

/-- C4: the recovery-byte adjustment (before the `0x` marker is added)
is idempotent on 130-hex-character signatures: one application leaves a
trailing byte of value at least 27, so a second application changes
nothing. -/
theorem adjustV_idem (sig : List Char) (c1 c2 : Char) (v1 v2 : Nat)
    (hLen : sig.length = 130)
    (hHex : ∀ c ∈ sig, (hexDigit? c).isSome = true)
    (hLast : sig.drop 128 = [c1, c2])
    (h1 : hexDigit? c1 = some v1) (h2 : hexDigit? c2 = some v2) :
    adjustV (adjustV sig) = adjustV sig := by
  have hparse : jsParseInt16 (sig.drop 128) = some (16 * v1 + v2) := by
    rw [hLast]
    exact jsParseInt16_pair h1 h2
  have hTakeLen : (sig.take 128).length = 128 := by
    rw [List.length_take, hLen]
    omega
  by_cases hv : 16 * v1 + v2 < 27
  · obtain ⟨hpad, hparse2, -, -⟩ := hexPair27 (16 * v1 + v2) hv
    rw [adjustV_of_lt hLen hparse hv, hpad]
    have hLen' :
        (sig.take 128 ++ [Nat.digitChar ((16 * v1 + v2 + 27) / 16),
          Nat.digitChar ((16 * v1 + v2 + 27) % 16)]).length = 130 := by
      simp [hTakeLen]
    have hDrop' :
        (sig.take 128 ++ [Nat.digitChar ((16 * v1 + v2 + 27) / 16),
          Nat.digitChar ((16 * v1 + v2 + 27) % 16)]).drop 128 =
        [Nat.digitChar ((16 * v1 + v2 + 27) / 16),
          Nat.digitChar ((16 * v1 + v2 + 27) % 16)] := by
      exact List.drop_left' hTakeLen
    exact adjustV_of_ge hLen' (by rw [hDrop']; exact hparse2) (by omega)
  · rw [adjustV_of_ge hLen hparse (by omega)]
    exact adjustV_of_ge hLen hparse (by omega)

def sigW4 : List Char := List.replicate 128 '0' ++ ['0', '0']

theorem adjustV_idem_witness :
    (sigW4.length = 130 ∧ (∀ c ∈ sigW4, (hexDigit? c).isSome = true) ∧
      sigW4.drop 128 = ['0', '0'] ∧ hexDigit? '0' = some 0) ∧
    adjustV (adjustV sigW4) = adjustV sigW4 :=
  ⟨⟨by decide, by decide, by decide, by decide⟩,
    adjustV_idem sigW4 '0' '0' 0 0 (by decide) (by decide) (by decide)
      (by decide) (by decide)⟩

/-! ### The server handler `signWithAlchemy` (lines 22-118)

External collaborators (`simulateVerifyToken`, `Bun.env`,
`para.hasPregenWallet`, `getKeyShareInDB`, `decrypt`) are opaque
boundaries and become fields of `ServerEnv`. The handler is modelled up
to the point where it hands control to the signing pipeline (line 75
onward): the result is either an early `Response`, an uncaught thrown
error, or `signingPipeline` carrying the decrypted key share. The
second component records the collaborator calls made, in order. -/

/-- `authHeader.startsWith("Bearer ")` on the character level. -/
def listStartsWith : List Char → List Char → Bool
  | [], _ => true
  | _ :: _, [] => false
  | p :: ps, c :: cs => (p == c) && listStartsWith ps cs

/-- `h.split(" ")` (JavaScript string split with a one-space separator). -/
def jsSplitSpaceAux : List Char → List Char → List (List Char)
  | [], acc => [acc.reverse]
  | c :: cs, acc =>
    if c == ' ' then acc.reverse :: jsSplitSpaceAux cs []
    else jsSplitSpaceAux cs (c :: acc)

/-- `authHeader.split(" ")[1]` (line 30); index 1 always exists once the
header passed the `startsWith("Bearer ")` check. -/
def jsTokenOf (h : String) : String :=
  (((jsSplitSpaceAux h.data []).map fun l => String.mk l).getD 1 "")

/-- The verified identity returned by `simulateVerifyToken`. -/
structure User where
  email : String
deriving DecidableEq

/-- The incoming request: the `Authorization` header and the parsed
JSON body's `email` field. -/
structure ServerRequest where
  authHeader : Option String
  email : Option String
deriving DecidableEq

/-- The collaborators and environment values consumed by the handler.
`decrypt` comes from `utils/encryption-utils`, which is not part of the
sources here; modelled from the spec: the decryption service turns
stored ciphertext into a usable key share and can fail ("successful
decryption of the key share" is listed as a separate condition), so it
is an `Except`, a thrown error being the failure mode of a TypeScript
function without a result check at its call site. -/
structure ServerEnv where
  verifyToken : String → Option User
  PARA_API_KEY : Option String
  ALCHEMY_API_KEY : Option String
  ALCHEMY_GAS_POLICY_ID : Option String
  hasPregenWallet : String → Bool
  getKeyShareInDB : String → Option String
  decrypt : String → Except String String

/-- A collaborator invocation, recorded in call order. -/
inductive Collab where
  | verifyToken (token : String)
  | hasPregenWallet (identifier : String)
  | getKeyShareInDB (email : String)
  | decrypt (ciphertext : String)
deriving DecidableEq

/-- What the handler produces: an early HTTP `Response`, an uncaught
thrown error (no `try`/`catch` wraps the handler body), or the
hand-off to the signing/submission pipeline of lines 75-117 with the
decrypted key share. -/
inductive ServerOutcome where
  | response (status : Nat) (body : String)
  | thrown (message : String)
  | signingPipeline (decryptedKeyShare : String)
deriving DecidableEq

def ServerOutcome.isResponse : ServerOutcome → Bool
  | .response _ _ => true
  | _ => false

/-- Lines 22-75 of the server source, gate by gate. `!x` on a string is
true for `undefined` and for `""`. -/
def signWithAlchemy (env : ServerEnv) (req : ServerRequest) :
    ServerOutcome × List Collab :=
  match req.authHeader with
  | none => (.response 401 "Unauthorized", [])
  | some authHeader =>
    if listStartsWith "Bearer ".data authHeader.data = false then
      (.response 401 "Unauthorized", [])
    else
      let token := jsTokenOf authHeader
      match env.verifyToken token with
      | none => (.response 401 "Unauthorized", [.verifyToken token])
      | some user =>
        match req.email with
        | none => (.response 400 "Email is required", [.verifyToken token])
        | some email =>
          if email = "" then
            (.response 400 "Email is required", [.verifyToken token])
          else if user.email ≠ email then
            (.response 403 "Forbidden", [.verifyToken token])
          else if env.PARA_API_KEY = none ∨ env.PARA_API_KEY = some "" then
            (.response 500 "PARA_API_KEY not set", [.verifyToken token])
          else if env.ALCHEMY_API_KEY = none ∨ env.ALCHEMY_API_KEY = some "" ∨
              env.ALCHEMY_GAS_POLICY_ID = none ∨
              env.ALCHEMY_GAS_POLICY_ID = some "" then
            (.response 500 "ALCHEMY_API_KEY or ALCHEMY_GAS_POLICY_ID not set",
              [.verifyToken token])
          else if env.hasPregenWallet email = false then
            (.response 400 "Wallet does not exist",
              [.verifyToken token, .hasPregenWallet email])
          else
            match env.getKeyShareInDB email with
            | none => (.response 400 "Key share does not exist",
                [.verifyToken token, .hasPregenWallet email,
                  .getKeyShareInDB email])
            | some keyShare =>
              if keyShare = "" then
                (.response 400 "Key share does not exist",
                  [.verifyToken token, .hasPregenWallet email,
                    .getKeyShareInDB email])
              else
                match env.decrypt keyShare with
                | .error e => (.thrown e,
                    [.verifyToken token, .hasPregenWallet email,
                      .getKeyShareInDB email, .decrypt keyShare])
                | .ok decryptedKeyShare => (.signingPipeline decryptedKeyShare,
                    [.verifyToken token, .hasPregenWallet email,
                      .getKeyShareInDB email, .decrypt keyShare])

/-! ### C6, C7: early-rejection behaviour of the server handler -/

/-- C6: a request whose `Authorization` header is missing or does not
start with `"Bearer "` is answered 401 with no collaborator call at
all: no token verification, no wallet lookup, no key-share lookup, no
decryption, and no hand-off to the signing pipeline. -/
theorem signWithAlchemy_missing_auth (env : ServerEnv) (req : ServerRequest)
    (h : req.authHeader = none ∨ ∃ a, req.authHeader = some a ∧
      listStartsWith "Bearer ".data a.data = false) :
    signWithAlchemy env req = (.response 401 "Unauthorized", []) := by
  rcases h with h | ⟨a, ha, hb⟩
  · simp [signWithAlchemy, h]
  · simp [signWithAlchemy, ha, hb]

def envC6 : ServerEnv :=
  { verifyToken := fun t =>
      if t = "token-1" then some ⟨"alice@example.com"⟩ else none
    PARA_API_KEY := some "para-key"
    ALCHEMY_API_KEY := some "alchemy-key"
    ALCHEMY_GAS_POLICY_ID := some "policy-1"
    hasPregenWallet := fun e => e == "alice@example.com"
    getKeyShareInDB := fun e =>
      if e = "alice@example.com" then some "cipher-1" else none
    decrypt := fun c => .ok ("plain-" ++ c) }

def reqC6 : ServerRequest := { authHeader := none, email := some "alice@example.com" }

theorem signWithAlchemy_missing_auth_witness :
    reqC6.authHeader = none ∧
    signWithAlchemy envC6 reqC6 = (.response 401 "Unauthorized", []) :=
  ⟨rfl, signWithAlchemy_missing_auth envC6 reqC6 (Or.inl rfl)⟩

/-- C7: a valid token whose identity's email differs from the body's
email is answered 403 even when a pregenerated wallet and a stored key
share exist for the token's true owner; the recorded calls show that
neither the wallet-existence check nor the key-share lookup is
reached. -/
theorem signWithAlchemy_email_mismatch (env : ServerEnv) (req : ServerRequest)
    (a e ks : String) (user : User)
    (ha : req.authHeader = some a)
    (hb : listStartsWith "Bearer ".data a.data = true)
    (hu : env.verifyToken (jsTokenOf a) = some user)
    (he : req.email = some e) (hne : e ≠ "")
    (hmm : user.email ≠ e)
    (hwallet : env.hasPregenWallet user.email = true)
    (hshare : env.getKeyShareInDB user.email = some ks) :
    signWithAlchemy env req =
      (.response 403 "Forbidden", [.verifyToken (jsTokenOf a)]) := by
  simp [signWithAlchemy, ha, hb, hu, he, hne, hmm]

def envC7 : ServerEnv :=
  { verifyToken := fun t =>
      if t = "token-7" then some ⟨"alice@example.com"⟩ else none
    PARA_API_KEY := some "para-key"
    ALCHEMY_API_KEY := some "alchemy-key"
    ALCHEMY_GAS_POLICY_ID := some "policy-1"
    hasPregenWallet := fun e => e == "alice@example.com"
    getKeyShareInDB := fun e =>
      if e = "alice@example.com" then some "cipher-7" else none
    decrypt := fun c => .ok ("plain-" ++ c) }

def reqC7 : ServerRequest :=
  { authHeader := some "Bearer token-7", email := some "bob@example.com" }

theorem signWithAlchemy_email_mismatch_witness :
    (reqC7.authHeader = some "Bearer token-7" ∧
      listStartsWith "Bearer ".data "Bearer token-7".data = true ∧
      envC7.verifyToken (jsTokenOf "Bearer token-7") =
        some ⟨"alice@example.com"⟩ ∧
      reqC7.email = some "bob@example.com" ∧
      ("bob@example.com" : String) ≠ "" ∧
      (User.mk "alice@example.com").email ≠ "bob@example.com" ∧
      envC7.hasPregenWallet "alice@example.com" = true ∧
      envC7.getKeyShareInDB "alice@example.com" = some "cipher-7") ∧
    signWithAlchemy envC7 reqC7 =
      (.response 403 "Forbidden", [.verifyToken (jsTokenOf "Bearer token-7")]) :=
  ⟨⟨rfl, by decide, by decide, rfl, by decide, by decide, by decide, by decide⟩,
    signWithAlchemy_email_mismatch envC7 reqC7 "Bearer token-7"
      "bob@example.com" "cipher-7" ⟨"alice@example.com"⟩ rfl (by decide)
      (by decide) rfl (by decide) (by decide) (by decide) (by decide)⟩

/-! ### C5: the gate sequence of the server handler

The code enforces six gates, each short-circuiting with its own
response; the seventh gate of the claim (successful key-share
decryption) is not checked anywhere: the result of `decrypt` is passed
straight to `setUserShare` (lines 74-75), so a decryption failure
surfaces as an uncaught thrown error, not as a distinct failure
response. -/

def envC5 : ServerEnv :=
  { verifyToken := fun t =>
      if t = "token-5" then some ⟨"carol@example.com"⟩ else none
    PARA_API_KEY := some "para-key"
    ALCHEMY_API_KEY := some "alchemy-key"
    ALCHEMY_GAS_POLICY_ID := some "policy-5"
    hasPregenWallet := fun e => e == "carol@example.com"
    getKeyShareInDB := fun e =>
      if e = "carol@example.com" then some "cipher-5" else none
    decrypt := fun _ => .error "decryption failed" }

def reqC5 : ServerRequest :=
  { authHeader := some "Bearer token-5", email := some "carol@example.com" }

/-- C5 counterexample: with every gate up to the key-share lookup
passing and a failing decryption, the handler does not short-circuit
with any failure response of its own: the outcome is an uncaught
thrown error. The decryption has no gate. -/
theorem signWithAlchemy_decrypt_no_gate_cex :
    (signWithAlchemy envC5 reqC5).1 = ServerOutcome.thrown "decryption failed" ∧
    (signWithAlchemy envC5 reqC5).1.isResponse = false := by decide

/-- C5 amended: the handler enforces six gates in order, each
short-circuiting with its own failure response — authorization-header
presence and shape (401), credential validity (401), email presence
(400) and exact match (403), deployment-secret presence (500, in two
checks), wallet existence (400), key-share existence (400, a stored
empty-string share counting as missing via `!keyShare`) — and the
recorded collaborator calls show each rejection happens before any
later collaborator runs. Decryption of the key share is not a gate: a
decryption failure propagates as an uncaught thrown error (still
before any signing), and on success the handler proceeds to the
signing pipeline. -/
theorem signWithAlchemy_gates (env : ServerEnv) (req : ServerRequest) :
    ((req.authHeader = none ∨ ∃ a, req.authHeader = some a ∧
        listStartsWith "Bearer ".data a.data = false) →
      signWithAlchemy env req = (.response 401 "Unauthorized", [])) ∧
    (∀ a, req.authHeader = some a →
      listStartsWith "Bearer ".data a.data = true →
      env.verifyToken (jsTokenOf a) = none →
      signWithAlchemy env req =
        (.response 401 "Unauthorized", [.verifyToken (jsTokenOf a)])) ∧
    (∀ a user, req.authHeader = some a →
      listStartsWith "Bearer ".data a.data = true →
      env.verifyToken (jsTokenOf a) = some user →
      (req.email = none ∨ req.email = some "") →
      signWithAlchemy env req =
        (.response 400 "Email is required", [.verifyToken (jsTokenOf a)])) ∧
    (∀ a user e, req.authHeader = some a →
      listStartsWith "Bearer ".data a.data = true →
      env.verifyToken (jsTokenOf a) = some user →
      req.email = some e → e ≠ "" → user.email ≠ e →
      signWithAlchemy env req =
        (.response 403 "Forbidden", [.verifyToken (jsTokenOf a)])) ∧
    (∀ a user e, req.authHeader = some a →
      listStartsWith "Bearer ".data a.data = true →
      env.verifyToken (jsTokenOf a) = some user →
      req.email = some e → e ≠ "" → user.email = e →
      (env.PARA_API_KEY = none ∨ env.PARA_API_KEY = some "") →
      signWithAlchemy env req =
        (.response 500 "PARA_API_KEY not set", [.verifyToken (jsTokenOf a)])) ∧
    (∀ a user e, req.authHeader = some a →
      listStartsWith "Bearer ".data a.data = true →
      env.verifyToken (jsTokenOf a) = some user →
      req.email = some e → e ≠ "" → user.email = e →
      env.PARA_API_KEY ≠ none → env.PARA_API_KEY ≠ some "" →
      (env.ALCHEMY_API_KEY = none ∨ env.ALCHEMY_API_KEY = some "" ∨
        env.ALCHEMY_GAS_POLICY_ID = none ∨
        env.ALCHEMY_GAS_POLICY_ID = some "") →
      signWithAlchemy env req =
        (.response 500 "ALCHEMY_API_KEY or ALCHEMY_GAS_POLICY_ID not set",
          [.verifyToken (jsTokenOf a)])) ∧
    (∀ a user e, req.authHeader = some a →
      listStartsWith "Bearer ".data a.data = true →
      env.verifyToken (jsTokenOf a) = some user →
      req.email = some e → e ≠ "" → user.email = e →
      env.PARA_API_KEY ≠ none → env.PARA_API_KEY ≠ some "" →
      env.ALCHEMY_API_KEY ≠ none → env.ALCHEMY_API_KEY ≠ some "" →
      env.ALCHEMY_GAS_POLICY_ID ≠ none → env.ALCHEMY_GAS_POLICY_ID ≠ some "" →
      env.hasPregenWallet e = false →
      signWithAlchemy env req =
        (.response 400 "Wallet does not exist",
          [.verifyToken (jsTokenOf a), .hasPregenWallet e])) ∧
    (∀ a user e, req.authHeader = some a →
      listStartsWith "Bearer ".data a.data = true →
      env.verifyToken (jsTokenOf a) = some user →
      req.email = some e → e ≠ "" → user.email = e →
      env.PARA_API_KEY ≠ none → env.PARA_API_KEY ≠ some "" →
      env.ALCHEMY_API_KEY ≠ none → env.ALCHEMY_API_KEY ≠ some "" →
      env.ALCHEMY_GAS_POLICY_ID ≠ none → env.ALCHEMY_GAS_POLICY_ID ≠ some "" →
      env.hasPregenWallet e = true →
      (env.getKeyShareInDB e = none ∨ env.getKeyShareInDB e = some "") →
      signWithAlchemy env req =
        (.response 400 "Key share does not exist",
          [.verifyToken (jsTokenOf a), .hasPregenWallet e,
            .getKeyShareInDB e])) ∧
    (∀ a user e ks m, req.authHeader = some a →
      listStartsWith "Bearer ".data a.data = true →
      env.verifyToken (jsTokenOf a) = some user →
      req.email = some e → e ≠ "" → user.email = e →
      env.PARA_API_KEY ≠ none → env.PARA_API_KEY ≠ some "" →
      env.ALCHEMY_API_KEY ≠ none → env.ALCHEMY_API_KEY ≠ some "" →
      env.ALCHEMY_GAS_POLICY_ID ≠ none → env.ALCHEMY_GAS_POLICY_ID ≠ some "" →
      env.hasPregenWallet e = true →
      env.getKeyShareInDB e = some ks → ks ≠ "" →
      env.decrypt ks = .error m →
      signWithAlchemy env req =
        (.thrown m, [.verifyToken (jsTokenOf a), .hasPregenWallet e,
          .getKeyShareInDB e, .decrypt ks])) ∧
    (∀ a user e ks d, req.authHeader = some a →
      listStartsWith "Bearer ".data a.data = true →
      env.verifyToken (jsTokenOf a) = some user →
      req.email = some e → e ≠ "" → user.email = e →
      env.PARA_API_KEY ≠ none → env.PARA_API_KEY ≠ some "" →
      env.ALCHEMY_API_KEY ≠ none → env.ALCHEMY_API_KEY ≠ some "" →
      env.ALCHEMY_GAS_POLICY_ID ≠ none → env.ALCHEMY_GAS_POLICY_ID ≠ some "" →
      env.hasPregenWallet e = true →
      env.getKeyShareInDB e = some ks → ks ≠ "" →
      env.decrypt ks = .ok d →
      signWithAlchemy env req =
        (.signingPipeline d, [.verifyToken (jsTokenOf a), .hasPregenWallet e,
          .getKeyShareInDB e, .decrypt ks])) := by
  refine ⟨?_, ?_, ?_, ?_, ?_, ?_, ?_, ?_, ?_, ?_⟩
  · intro h
    exact signWithAlchemy_missing_auth env req h
  · intro a ha hb hu
    simp [signWithAlchemy, ha, hb, hu]
  · intro a user ha hb hu he
    rcases he with he | he <;> simp [signWithAlchemy, ha, hb, hu, he]
  · intro a user e ha hb hu he hne hmm
    simp [signWithAlchemy, ha, hb, hu, he, hne, hmm]
  · intro a user e ha hb hu he hne hmm hp
    rcases hp with hp | hp <;>
      simp [signWithAlchemy, ha, hb, hu, he, hne, hmm, hp]
  · intro a user e ha hb hu he hne hmm hp1 hp2 hal
    rcases hal with hal | hal | hal | hal <;>
      simp [signWithAlchemy, ha, hb, hu, he, hne, hmm, hp1, hp2, hal]
  · intro a user e ha hb hu he hne hmm hp1 hp2 ha1 ha2 hg1 hg2 hw
    simp [signWithAlchemy, ha, hb, hu, he, hne, hmm, hp1, hp2, ha1, ha2,
      hg1, hg2, hw]
  · intro a user e ha hb hu he hne hmm hp1 hp2 ha1 ha2 hg1 hg2 hw hk
    rcases hk with hk | hk <;>
      simp [signWithAlchemy, ha, hb, hu, he, hne, hmm, hp1, hp2, ha1, ha2,
        hg1, hg2, hw, hk]
  · intro a user e ks m ha hb hu he hne hmm hp1 hp2 ha1 ha2 hg1 hg2 hw hk hks hd
    simp [signWithAlchemy, ha, hb, hu, he, hne, hmm, hp1, hp2, ha1, ha2,
      hg1, hg2, hw, hk, hks, hd]
  · intro a user e ks d ha hb hu he hne hmm hp1 hp2 ha1 ha2 hg1 hg2 hw hk hks hd
    simp [signWithAlchemy, ha, hb, hu, he, hne, hmm, hp1, hp2, ha1, ha2,
      hg1, hg2, hw, hk, hks, hd]

theorem signWithAlchemy_gates_witness :
    (reqC5.authHeader = some "Bearer token-5" ∧
      listStartsWith "Bearer ".data "Bearer token-5".data = true ∧
      envC5.verifyToken (jsTokenOf "Bearer token-5") =
        some ⟨"carol@example.com"⟩ ∧
      reqC5.email = some "carol@example.com" ∧
      ("carol@example.com" : String) ≠ "" ∧
      (User.mk "carol@example.com").email = "carol@example.com" ∧
      envC5.PARA_API_KEY ≠ none ∧ envC5.PARA_API_KEY ≠ some "" ∧
      envC5.ALCHEMY_API_KEY ≠ none ∧ envC5.ALCHEMY_API_KEY ≠ some "" ∧
      envC5.ALCHEMY_GAS_POLICY_ID ≠ none ∧
      envC5.ALCHEMY_GAS_POLICY_ID ≠ some "" ∧
      envC5.hasPregenWallet "carol@example.com" = true ∧
      envC5.getKeyShareInDB "carol@example.com" = some "cipher-5" ∧
      ("cipher-5" : String) ≠ "" ∧
      envC5.decrypt "cipher-5" = .error "decryption failed") ∧
    signWithAlchemy envC5 reqC5 =
      (.thrown "decryption failed",
        [.verifyToken (jsTokenOf "Bearer token-5"),
          .hasPregenWallet "carol@example.com",
          .getKeyShareInDB "carol@example.com", .decrypt "cipher-5"]) :=
  ⟨⟨rfl, by decide, by decide, rfl, by decide, rfl, by decide, by decide,
      by decide, by decide, by decide, by decide, by decide, by decide,
      by decide, rfl⟩,
    (signWithAlchemy_gates envC5 reqC5).2.2.2.2.2.2.2.2.1 "Bearer token-5"
      ⟨"carol@example.com"⟩ "carol@example.com" "cipher-5" "decryption failed"
      rfl (by decide) (by decide) rfl (by decide) rfl (by decide) (by decide)
      (by decide) (by decide) (by decide) (by decide) (by decide) (by decide)
      (by decide) rfl⟩

/-! ### The client widget submit handler (`sign-message.tsx`, lines 19-72)

`capsule.signMessage` is the external wallet SDK call and becomes a
field of `ClientEnv`; its result either completes with a signature or
carries a `pendingTransactionId`/`transactionReviewUrl` property, and
the call may throw (caught by the generic handler). `Buffer.from(s)`
takes the UTF-8 bytes of `s` and `toString("base64")` is standard
base64 with padding. `message.trim()` removes JavaScript whitespace
from both ends. The result pairs the final component state with the
list of `(walletId, base64Message)` signer calls made. -/

/-- The JavaScript `String.prototype.trim` whitespace class (WhiteSpace
and LineTerminator code points). -/
def isJsWhitespace (c : Char) : Bool :=
  c == ' ' || c == '\t' || c == '\n' || c == '\r' ||
  c.toNat == 11 || c.toNat == 12 || c.toNat == 160 || c.toNat == 65279 ||
  c.toNat == 5760 || (8192 ≤ c.toNat && c.toNat ≤ 8202) ||
  c.toNat == 8232 || c.toNat == 8233 || c.toNat == 8239 ||
  c.toNat == 8287 || c.toNat == 12288

def trimLeftWs (l : List Char) : List Char := l.dropWhile isJsWhitespace

def trimRightWs (l : List Char) : List Char :=
  (l.reverse.dropWhile isJsWhitespace).reverse

def jsTrimList (l : List Char) : List Char := trimRightWs (trimLeftWs l)

/-- `s.trim()`. -/
def jsTrim (s : String) : String := String.mk (jsTrimList s.data)

/-- UTF-8 encoding of one code point. -/
def utf8EncodeChar (c : Char) : List Nat :=
  let n := c.toNat
  if n < 128 then [n]
  else if n < 2048 then [192 + n / 64, 128 + n % 64]
  else if n < 65536 then [224 + n / 4096, 128 + n / 64 % 64, 128 + n % 64]
  else [240 + n / 262144, 128 + n / 4096 % 64, 128 + n / 64 % 64, 128 + n % 64]

/-- The bytes of `Buffer.from(s)` (UTF-8). -/
def utf8Bytes (s : String) : List Nat := s.data.flatMap utf8EncodeChar

def base64Chars : List Char :=
  "ABCDEFGHIJKLMNOPQRSTUVWXYZabcdefghijklmnopqrstuvwxyz0123456789+/".data

def b64Char (n : Nat) : Char := base64Chars.getD n '?'

/-- Standard base64 with `=` padding over a byte list. -/
def encodeB64 : List Nat → List Char
  | [] => []
  | [b1] => [b64Char (b1 / 4), b64Char (b1 % 4 * 16), '=', '=']
  | [b1, b2] =>
    [b64Char (b1 / 4), b64Char (b1 % 4 * 16 + b2 / 16), b64Char (b2 % 16 * 4), '=']
  | b1 :: b2 :: b3 :: rest =>
    b64Char (b1 / 4) :: b64Char (b1 % 4 * 16 + b2 / 16) ::
      b64Char (b2 % 16 * 4 + b3 / 64) :: b64Char (b3 % 64) :: encodeB64 rest

/-- `Buffer.from(s).toString("base64")`. -/
def bufferToBase64 (s : String) : String := String.mk (encodeB64 (utf8Bytes s))

inductive StatusType where
  | success
  | error
deriving DecidableEq

/-- The `status` state of the component; the source field `show` is a
Lean keyword and is rendered `visible` here. -/
structure StatusState where
  visible : Bool
  type : StatusType
  message : String
deriving DecidableEq

/-- The signer result: presence of the `pendingTransactionId` /
`transactionReviewUrl` properties (the `"…" in signature` checks of
line 47) plus the `signature` field read on completion. -/
structure SignResult where
  hasPendingTransactionId : Bool
  hasTransactionReviewUrl : Bool
  signature : String
deriving DecidableEq

/-- The hook values and the wallet SDK call consumed by the handler;
`signMessage` returning `.error` models a thrown rejection. -/
structure ClientEnv where
  isConnected : Bool
  walletId : Option String
  signMessage : String → String → Except String SignResult

/-- The component state touched by `handleSubmit`. -/
structure WidgetState where
  message : String
  signature : String
  isLoading : Bool
  status : StatusState
deriving DecidableEq

/-- Lines 19-72 of the component: `setIsLoading(true)` at entry and the
`finally` clause net to `isLoading = false` on every path. `!walletId`
is true for `undefined` and for `""`. -/
def handleSubmit (env : ClientEnv) (st : WidgetState) :
    WidgetState × List (String × String) :=
  if env.isConnected = false then
    ({ st with
        isLoading := false
        status := ⟨true, .error, "Please connect your wallet to sign a message."⟩ }, [])
  else
    match env.walletId with
    | none =>
      ({ st with
          isLoading := false
          status := ⟨true, .error, "No wallet ID found. Please reconnect your wallet."⟩ }, [])
    | some walletId =>
      if walletId = "" then
        ({ st with
            isLoading := false
            status := ⟨true, .error, "No wallet ID found. Please reconnect your wallet."⟩ }, [])
      else
        let base64Message := bufferToBase64 (jsTrim st.message)
        match env.signMessage walletId base64Message with
        | .error _ =>
          ({ st with
              isLoading := false
              status := ⟨true, .error, "Failed to sign message. Please try again."⟩ },
            [(walletId, base64Message)])
        | .ok res =>
          if res.hasPendingTransactionId || res.hasTransactionReviewUrl then
            ({ st with
                isLoading := false
                status := ⟨true, .error, "Message signing was denied."⟩ },
              [(walletId, base64Message)])
          else
            ({ st with
                isLoading := false
                signature := "0x" ++ res.signature
                status := ⟨true, .success, "Message signed successfully!"⟩ },
              [(walletId, base64Message)])

/-! ### Supporting lemmas about trimming and the submit trace -/

theorem dropWhile_ws_append (w x : List Char)
    (h : ∀ c ∈ w, isJsWhitespace c = true) :
    (w ++ x).dropWhile isJsWhitespace = x.dropWhile isJsWhitespace := by
  induction w with
  | nil => rfl
  | cons c cs ih =>
    rw [List.cons_append, List.dropWhile_cons, h c (List.mem_cons_self c cs)]
    simp only [if_pos]
    exact ih fun d hd => h d (List.mem_cons_of_mem c hd)

theorem dropWhile_ws_nil (w : List Char)
    (h : ∀ c ∈ w, isJsWhitespace c = true) :
    w.dropWhile isJsWhitespace = [] := by
  have hw := dropWhile_ws_append w [] h
  rw [List.append_nil] at hw
  rw [hw]
  rfl

theorem trimRightWs_append (x w : List Char)
    (h : ∀ c ∈ w, isJsWhitespace c = true) :
    trimRightWs (x ++ w) = trimRightWs x := by
  unfold trimRightWs
  rw [List.reverse_append, dropWhile_ws_append]
  intro c hc
  exact h c (List.mem_reverse.mp hc)

/-- Trimming ignores any all-whitespace padding of both ends. -/
theorem jsTrimList_pad (w₁ w₂ m : List Char)
    (h₁ : ∀ c ∈ w₁, isJsWhitespace c = true)
    (h₂ : ∀ c ∈ w₂, isJsWhitespace c = true) :
    jsTrimList (w₁ ++ m ++ w₂) = jsTrimList m := by
  unfold jsTrimList trimLeftWs
  rw [List.append_assoc, dropWhile_ws_append w₁ (m ++ w₂) h₁,
    List.dropWhile_append]
  by_cases hm : (m.dropWhile isJsWhitespace).isEmpty
  · rw [if_pos hm, dropWhile_ws_nil w₂ h₂,
      List.isEmpty_iff.mp hm]
  · rw [if_neg hm]
    exact trimRightWs_append _ w₂ h₂

/-- Whenever the connection guards pass, the handler makes exactly one
signer call, with the base64 encoding of the trimmed message. -/
theorem handleSubmit_trace (env : ClientEnv) (st : WidgetState) (wid : String)
    (hc : env.isConnected = true) (hw : env.walletId = some wid)
    (hne : wid ≠ "") :
    (handleSubmit env st).2 = [(wid, bufferToBase64 (jsTrim st.message))] := by
  rcases hs : env.signMessage wid (bufferToBase64 (jsTrim st.message)) with m | r
  · simp [handleSubmit, hc, hw, hne, hs]
  · by_cases hp : (r.hasPendingTransactionId || r.hasTransactionReviewUrl) = true
    · simp [handleSubmit, hc, hw, hne, hs, hp]
    · simp [handleSubmit, hc, hw, hne, hs, hp]

/-! ### C8 - C10: claims about the client widget -/

/-- C8: a submit while no wallet connection is established sets the
error status "Please connect your wallet to sign a message." and
returns without calling the wallet SDK's signing function (the call
trace is empty); only the status and loading flag change. -/
theorem handleSubmit_not_connected (env : ClientEnv) (st : WidgetState)
    (h : env.isConnected = false) :
    handleSubmit env st =
      ({ st with
          isLoading := false
          status := ⟨true, .error, "Please connect your wallet to sign a message."⟩ },
        []) := by
  simp [handleSubmit, h]

def envC8 : ClientEnv :=
  { isConnected := false
    walletId := some "wallet-8"
    signMessage := fun _ _ => .ok ⟨false, false, "aabb"⟩ }

def stC8 : WidgetState :=
  { message := "hello"
    signature := ""
    isLoading := true
    status := ⟨false, .success, ""⟩ }

theorem handleSubmit_not_connected_witness :
    envC8.isConnected = false ∧
    handleSubmit envC8 stC8 =
      ({ stC8 with
          isLoading := false
          status := ⟨true, .error, "Please connect your wallet to sign a message."⟩ },
        []) :=
  ⟨rfl, handleSubmit_not_connected envC8 stC8 rfl⟩

/-- C9: when the signer resolves to an object carrying a
`pendingTransactionId` or `transactionReviewUrl` property, the handler
sets the error status "Message signing was denied." and leaves the
displayed signature state unchanged. -/
theorem handleSubmit_denied (env : ClientEnv) (st : WidgetState)
    (wid : String) (res : SignResult)
    (hc : env.isConnected = true) (hw : env.walletId = some wid)
    (hne : wid ≠ "")
    (hs : env.signMessage wid (bufferToBase64 (jsTrim st.message)) = .ok res)
    (hp : (res.hasPendingTransactionId || res.hasTransactionReviewUrl) = true) :
    handleSubmit env st =
      ({ st with
          isLoading := false
          status := ⟨true, .error, "Message signing was denied."⟩ },
        [(wid, bufferToBase64 (jsTrim st.message))]) ∧
    (handleSubmit env st).1.signature = st.signature := by
  have h1 : handleSubmit env st =
      ({ st with
          isLoading := false
          status := ⟨true, .error, "Message signing was denied."⟩ },
        [(wid, bufferToBase64 (jsTrim st.message))]) := by
    simp [handleSubmit, hc, hw, hne, hs, hp]
  refine ⟨h1, ?_⟩
  rw [h1]

def envC9 : ClientEnv :=
  { isConnected := true
    walletId := some "wallet-9"
    signMessage := fun _ _ => .ok ⟨true, false, "ccdd"⟩ }

def stC9 : WidgetState :=
  { message := "approve me"
    signature := "0xold"
    isLoading := true
    status := ⟨false, .success, ""⟩ }

theorem handleSubmit_denied_witness :
    (envC9.isConnected = true ∧ envC9.walletId = some "wallet-9" ∧
      ("wallet-9" : String) ≠ "" ∧
      envC9.signMessage "wallet-9" (bufferToBase64 (jsTrim stC9.message)) =
        .ok ⟨true, false, "ccdd"⟩ ∧
      ((SignResult.mk true false "ccdd").hasPendingTransactionId ||
        (SignResult.mk true false "ccdd").hasTransactionReviewUrl) = true) ∧
    handleSubmit envC9 stC9 =
      ({ stC9 with
          isLoading := false
          status := ⟨true, .error, "Message signing was denied."⟩ },
        [("wallet-9", bufferToBase64 (jsTrim stC9.message))]) ∧
    (handleSubmit envC9 stC9).1.signature = stC9.signature :=
  ⟨⟨rfl, rfl, by decide, rfl, rfl⟩,
    handleSubmit_denied envC9 stC9 "wallet-9" ⟨true, false, "ccdd"⟩ rfl rfl
      (by decide) rfl rfl⟩

/-- C10: the payload of every signer call is the base64 encoding of
the UTF-8 bytes of the whitespace-trimmed message, and padding the
message with leading/trailing whitespace leaves the signing request
unchanged. -/
theorem handleSubmit_trim (env : ClientEnv) (st : WidgetState) (wid : String)
    (hc : env.isConnected = true) (hw : env.walletId = some wid)
    (hne : wid ≠ "") :
    (handleSubmit env st).2 = [(wid, bufferToBase64 (jsTrim st.message))] ∧
    ∀ w₁ w₂ : List Char, (∀ c ∈ w₁, isJsWhitespace c = true) →
      (∀ c ∈ w₂, isJsWhitespace c = true) →
      (handleSubmit env
          { st with message := String.mk (w₁ ++ st.message.data ++ w₂) }).2 =
        (handleSubmit env st).2 := by
  refine ⟨handleSubmit_trace env st wid hc hw hne, ?_⟩
  intro w₁ w₂ h₁ h₂
  rw [handleSubmit_trace env _ wid hc hw hne,
    handleSubmit_trace env st wid hc hw hne]
  have ht : jsTrim (String.mk (w₁ ++ st.message.data ++ w₂)) = jsTrim st.message := by
    unfold jsTrim
    rw [jsTrimList_pad w₁ w₂ st.message.data h₁ h₂]
  show [(wid, bufferToBase64 (jsTrim (String.mk (w₁ ++ st.message.data ++ w₂))))] =
    [(wid, bufferToBase64 (jsTrim st.message))]
  rw [ht]

def envC10 : ClientEnv :=
  { isConnected := true
    walletId := some "wallet-10"
    signMessage := fun _ _ => .ok ⟨false, false, "eeff"⟩ }

def stC10 : WidgetState :=
  { message := "sign this"
    signature := ""
    isLoading := true
    status := ⟨false, .success, ""⟩ }

theorem handleSubmit_trim_witness :
    (envC10.isConnected = true ∧ envC10.walletId = some "wallet-10" ∧
      ("wallet-10" : String) ≠ "" ∧
      (∀ c ∈ [' '], isJsWhitespace c = true) ∧
      (∀ c ∈ [' ', '\t'], isJsWhitespace c = true)) ∧
    (handleSubmit envC10 stC10).2 =
      [("wallet-10", bufferToBase64 (jsTrim stC10.message))] ∧
    (handleSubmit envC10
        { stC10 with
            message := String.mk ([' '] ++ stC10.message.data ++ [' ', '\t']) }).2 =
      (handleSubmit envC10 stC10).2 :=
  ⟨⟨rfl, rfl, by decide, by decide, by decide⟩,
    (handleSubmit_trim envC10 stC10 "wallet-10" rfl rfl (by decide)).1,
    (handleSubmit_trim envC10 stC10 "wallet-10" rfl rfl (by decide)).2
      [' '] [' ', '\t'] (by decide) (by decide)⟩
